import Mathlib

/-
Verification development for the browser-auto repository.

The Go sources are shallowly embedded: pure functions become Lean
functions; calls into external collaborators (the Playwright browser
controller, the LLM HTTP clients, the wall clock) become oracle fields of
an explicit world state `σ` that every call threads through.  Fallible Go
functions returning `(T, error)` become `Except String T` (or
`Option String` for a bare `error`), with the error strings taken from the
source's `fmt.Errorf` format strings.  `time.Sleep` calls perform no
collaborator interaction and are therefore invisible to the embedding.
-/

namespace BrowserAuto

/- ===== internal/browser/controller.go : data model ===== -/

/-- Action kinds are plain strings in the source (`type ActionType string`),
so the embedding keeps them as strings and models the named constants. -/
abbrev ActionType := String

def ActionNavigate : ActionType := "navigate"

def ActionClick : ActionType := "click"

def ActionFill : ActionType := "fill"

def ActionHover : ActionType := "hover"

def ActionSelect : ActionType := "select"

def ActionScreenshot : ActionType := "screenshot"

def ActionWait : ActionType := "wait"

def ActionScroll : ActionType := "scroll"

/-- Interactive page element (browser.Element); only the fields the core
reads (tag name and text, used when rendering prompts) are kept. -/
structure Element where
  tagName : String
  text : String
  deriving Repr, DecidableEq

/-- Page snapshot (browser.PageSnapshot): current URL, title and the
visible interactive elements.  The timestamp is never read by the core. -/
structure Snapshot where
  url : String
  title : String
  elements : List Element
  deriving Repr, DecidableEq

/- ===== planner types (unnamed planner source, part_005) ===== -/

/-- planner.ActionStep: one planned browser operation. -/
structure ActionStep where
  order : Int
  action : ActionType
  target : String
  value : String
  waitFor : String
  screenshot : Bool
  description : String
  deriving Repr, DecidableEq

/-- planner.StepResult as the orchestrator builds it: a success flag and
an error text (empty when the step succeeded). -/
structure StepResult where
  success : Bool
  error : String
  deriving Repr, DecidableEq

/-- planner.TaskPlan: plan description plus the ordered steps. -/
structure TaskPlan where
  taskId : String
  description : String
  steps : List ActionStep
  deriving Repr, DecidableEq

/-- domain.Screenshot as the orchestrator constructs it: only the step
order is data (the id is a fresh UUID and the timestamp is the clock). -/
structure Screenshot where
  stepOrder : Int
  deriving Repr, DecidableEq

/- ===== internal/orchestrator/orchestrator.go : executeStep ===== -/

/-- Browser driver operations used by `executeStep`, as oracles over a
world state `σ`.  Each fallible operation returns `Option String`
(`some e` is a Go error with text `e`).  `takeSnapshot` is total because
the Playwright controller's TakeSnapshot swallows every evaluation error
and always returns a snapshot. -/
structure BrowserOps (σ : Type) where
  navigate : σ → String → Option String × σ
  click : σ → String → Option String × σ
  fill : σ → String → String → Option String × σ
  hover : σ → String → Option String × σ
  selectOption : σ → String → String → Option String × σ
  waitForSelector : σ → String → Option String × σ
  takeScreenshot : σ → Option String × σ
  takeSnapshot : σ → Snapshot × σ

/-- The action dispatch switch of `executeStep` (orchestrator.go 194-216).
A `wait` step with an empty `WaitFor` only sleeps, and an action kind
matching no case leaves the error nil without touching the driver. -/
def dispatchAction {σ : Type} (brw : BrowserOps σ) (s : σ) (step : ActionStep) :
    Option String × σ :=
  if step.action = ActionNavigate then brw.navigate s step.target
  else if step.action = ActionClick then brw.click s step.target
  else if step.action = ActionFill then brw.fill s step.target step.value
  else if step.action = ActionHover then brw.hover s step.target
  else if step.action = ActionSelect then brw.selectOption s step.target step.value
  else if step.action = ActionWait then
    (if step.waitFor ≠ "" then brw.waitForSelector s step.waitFor else (none, s))
  else (none, s)

/-- orchestrator executeStep (orchestrator.go 189-244): dispatch the
action; a driver error yields a failed StepResult carrying the error text
plus the error itself; otherwise, after a settle delay, capture a
screenshot tagged with the step order if the step requested one (a
screenshot error is swallowed), and report success. -/
def executeStep {σ : Type} (brw : BrowserOps σ) (s : σ) (step : ActionStep) :
    StepResult × Option Screenshot × Option String × σ :=
  match dispatchAction brw s step with
  | (some e, s1) => (⟨false, e⟩, none, some e, s1)
  | (none, s1) =>
      if step.screenshot then
        match brw.takeScreenshot s1 with
        | (none, s2) => (⟨true, ""⟩, some ⟨step.order⟩, none, s2)
        | (some _, s2) => (⟨true, ""⟩, none, none, s2)
      else (⟨true, ""⟩, none, none, s1)

/- ===== internal/orchestrator/orchestrator.go : the step loop ===== -/

/-- Collaborator surface of the step loop (orchestrator.go 135-162): the
step executor, the planner's RefineStep, and the snapshot recapture.  All
three thread the same world state `σ`. -/
structure LoopEnv (σ : Type) where
  exec : σ → ActionStep → StepResult × Option Screenshot × Option String × σ
  refine : σ → ActionStep → Snapshot → Except String ActionStep × σ
  snapshot : σ → Snapshot × σ

/-- One iteration of the step loop, returning the appended StepResult, the
screenshot to append (if any), and the world state and snapshot for the
next iteration.  On failure the planner's RefineStep is called with the
snapshot currently in hand; if refinement errors the original failure is
recorded and the iteration ends at once (the `continue` skips the
snapshot recapture); if refinement succeeds the refined step is executed
once and its outcome is used with its error ignored. -/
def stepIter {σ : Type} (env : LoopEnv σ) (s : σ) (snap : Snapshot) (st : ActionStep) :
    StepResult × Option Screenshot × σ × Snapshot :=
  match env.exec s st with
  | (result, shot, none, s1) =>
      match env.snapshot s1 with
      | (snap1, s2) => (result, shot, s2, snap1)
  | (_, _, some e, s1) =>
      match env.refine s1 st snap with
      | (Except.error _, s2) => (⟨false, e⟩, none, s2, snap)
      | (Except.ok refined, s2) =>
          match env.exec s2 refined with
          | (result2, shot2, _, s3) =>
              match env.snapshot s3 with
              | (snap1, s4) => (result2, shot2, s4, snap1)

/-- The step loop of ExecuteTask (orchestrator.go 135-162), folded over
the plan steps in order.  Returns the aggregated StepResults, the appended
screenshots, and the final world state and snapshot. -/
def execLoop {σ : Type} (env : LoopEnv σ) :
    List ActionStep → σ → Snapshot → List StepResult × List Screenshot × σ × Snapshot
  | [], s, snap => ([], [], s, snap)
  | st :: rest, s, snap =>
      match stepIter env s snap st with
      | (r, shot, s1, snap1) =>
          match execLoop env rest s1 snap1 with
          | (rs, shots, s2, snap2) =>
              (r :: rs, (match shot with | some sc => sc :: shots | none => shots), s2, snap2)

/-- Every planned step contributes exactly one StepResult: the aggregated
list has one entry per plan step. -/
theorem execLoop_length {σ : Type} (env : LoopEnv σ) (steps : List ActionStep)
    (s : σ) (snap : Snapshot) : (execLoop env steps s snap).1.length = steps.length := by
  induction steps generalizing s snap with
  | nil => rfl
  | cons st rest ih =>
      simp only [execLoop]
      rcases h1 : stepIter env s snap st with ⟨r, shot, s1, snap1⟩
      rcases h2 : execLoop env rest s1 snap1 with ⟨rs, shots, s2, snap2⟩
      have := ih s1 snap1
      rw [h2] at this
      simp [this]

/- ===== Claim C1 / C2: the refine-on-failure loop ===== -/

/-- C1: for every plan with 3 steps where executing step 2 fails and
RefineStep returns a refined step without error, the aggregated StepResult
sequence has length 3 and its entry at index 1 is the outcome of executing
the refined step (the second attempt), not the original failure; every
planned step contributes exactly one StepResult, in plan order, and the
refined step is executed exactly once here (step 3 resumes from the world
state reached by that single execution followed by one snapshot
recapture), never retried in a loop. -/
theorem c1_refined_outcome_replaces_failure {σ : Type}
    (env : LoopEnv σ) (st1 st2 st3 : ActionStep) (s0 : σ) (snap0 : Snapshot)
    (r1 : StepResult) (shot1 : Option Screenshot) (s1 : σ) (snap1 : Snapshot)
    (h1 : stepIter env s0 snap0 st1 = (r1, shot1, s1, snap1))
    (rFail : StepResult) (shotFail : Option Screenshot) (e : String) (s2 : σ)
    (h2 : env.exec s1 st2 = (rFail, shotFail, some e, s2))
    (refined : ActionStep) (s3 : σ)
    (h3 : env.refine s2 st2 snap1 = (Except.ok refined, s3))
    (r2 : StepResult) (shot2 : Option Screenshot) (err2 : Option String) (s4 : σ)
    (h4 : env.exec s3 refined = (r2, shot2, err2, s4))
    (snap2 : Snapshot) (s5 : σ)
    (h5 : env.snapshot s4 = (snap2, s5)) :
    (execLoop env [st1, st2, st3] s0 snap0).1 =
      [r1, r2, (stepIter env s5 snap2 st3).1] ∧
    (execLoop env [st1, st2, st3] s0 snap0).1.length = 3 ∧
    (execLoop env [st1, st2, st3] s0 snap0).1.get? 1 = some r2 := by
  rcases h6 : stepIter env s5 snap2 st3 with ⟨r3, shot3, s6, snap3⟩
  have hstep2 : stepIter env s1 snap1 st2 = (r2, shot2, s5, snap2) := by
    simp only [stepIter, h2, h3, h4, h5]
  simp only [execLoop, h1, hstep2, h6]
  simp

/-- C2: for every plan with 3 steps where executing step 2 fails and
RefineStep itself returns an error, the aggregated StepResult at index 1
has Success = false and carries the original execution error text `e`, not
the refinement error text; step 3 is still executed (from the state left
by the refinement call, with the snapshot unchanged) and the refinement
error never aborts the task: the result list is still full length. -/
theorem c2_refine_error_keeps_original_failure {σ : Type}
    (env : LoopEnv σ) (st1 st2 st3 : ActionStep) (s0 : σ) (snap0 : Snapshot)
    (r1 : StepResult) (shot1 : Option Screenshot) (s1 : σ) (snap1 : Snapshot)
    (h1 : stepIter env s0 snap0 st1 = (r1, shot1, s1, snap1))
    (rFail : StepResult) (shotFail : Option Screenshot) (e : String) (s2 : σ)
    (h2 : env.exec s1 st2 = (rFail, shotFail, some e, s2))
    (msg : String) (s3 : σ)
    (h3 : env.refine s2 st2 snap1 = (Except.error msg, s3)) :
    (execLoop env [st1, st2, st3] s0 snap0).1 =
      [r1, ⟨false, e⟩, (stepIter env s3 snap1 st3).1] ∧
    (execLoop env [st1, st2, st3] s0 snap0).1.get? 1 = some ⟨false, e⟩ ∧
    (execLoop env [st1, st2, st3] s0 snap0).1.length = 3 := by
  rcases h6 : stepIter env s3 snap1 st3 with ⟨r3, shot3, s6, snap3⟩
  have hstep2 : stepIter env s1 snap1 st2 = (⟨false, e⟩, none, s3, snap1) := by
    simp only [stepIter, h2, h3]
  simp only [execLoop, h1, hstep2, h6]
  simp

/- Concrete witness environment for the loop theorems: the world state is
a call counter, a step succeeds exactly when its target is "good", and
refinement always proposes the step with target "good". -/

def wSnap : Snapshot := ⟨"u", "t", []⟩

def wStep (tgt : String) : ActionStep := ⟨1, ActionClick, tgt, "", "", false, ""⟩

def wEnv : LoopEnv Nat where
  exec := fun n st =>
    if st.target = "good" then (⟨true, ""⟩, none, none, n + 1)
    else (⟨false, "boom"⟩, none, some "boom", n + 1)
  refine := fun n _ _ => (Except.ok (wStep "good"), n)
  snapshot := fun n => (wSnap, n)

/-- Witness for C1 at a concrete three-step plan whose second step fails
and is successfully refined. -/
theorem c1_refined_outcome_replaces_failure_witness :
    (execLoop wEnv [wStep "good", wStep "bad", wStep "good"] 0 wSnap).1 =
      [⟨true, ""⟩, ⟨true, ""⟩, (stepIter wEnv 3 wSnap (wStep "good")).1] :=
  (c1_refined_outcome_replaces_failure wEnv (wStep "good") (wStep "bad") (wStep "good")
    0 wSnap ⟨true, ""⟩ none 1 wSnap (by rfl)
    ⟨false, "boom"⟩ none "boom" 2 (by rfl)
    (wStep "good") 2 (by rfl)
    ⟨true, ""⟩ none none 3 (by rfl)
    wSnap 3 (by rfl)).1

/-- Concrete witness environment for C2: refinement always errors. -/
def wEnvRefineErr : LoopEnv Nat where
  exec := fun n st =>
    if st.target = "good" then (⟨true, ""⟩, none, none, n + 1)
    else (⟨false, "boom"⟩, none, some "boom", n + 1)
  refine := fun n _ _ => (Except.error "refine failed", n)
  snapshot := fun n => (wSnap, n)

/-- Witness for C2 at a concrete three-step plan whose second step fails
and whose refinement errors: index 1 keeps the original error text. -/
theorem c2_refine_error_keeps_original_failure_witness :
    (execLoop wEnvRefineErr [wStep "good", wStep "bad", wStep "good"] 0 wSnap).1.get? 1 =
      some ⟨false, "boom"⟩ :=
  (c2_refine_error_keeps_original_failure wEnvRefineErr
    (wStep "good") (wStep "bad") (wStep "good") 0 wSnap
    ⟨true, ""⟩ none 1 wSnap (by rfl)
    ⟨false, "boom"⟩ none "boom" 2 (by rfl)
    "refine failed" 2 (by rfl)).2.1

/- ===== Claim C3: which snapshot does RefineStep see? ===== -/

/- Environment observing the snapshot handed to RefineStep: the refined
step's target records the url of the snapshot the refiner received, and
executing the refined step copies that target into the reported error
field, so the aggregated result reveals it.  Every snapshot the driver can
capture has url "fresh", while the snapshot in hand before the failing
step has url "stale". -/

def c3Snap0 : Snapshot := ⟨"stale", "", []⟩

def c3FreshSnap : Snapshot := ⟨"fresh", "", []⟩

def c3Step : ActionStep := ⟨1, ActionClick, "orig", "", "", false, ""⟩

def c3Env : LoopEnv Nat where
  exec := fun n st =>
    if st.target = "orig" then (⟨false, "boom"⟩, none, some "boom", n + 1)
    else (⟨true, st.target⟩, none, none, n + 1)
  refine := fun n st snap => (Except.ok { st with target := snap.url }, n)
  snapshot := fun n => (c3FreshSnap, n + 1)

/-- C3 counterexample: in a concrete run whose only step fails, RefineStep
receives the snapshot captured before the failed step (url "stale"), even
though every snapshot recapture after the failure would have produced url
"fresh" — the refiner does not see a freshly recaptured snapshot, so the
claim is false. -/
theorem c3_refine_snapshot_counterexample :
    (execLoop c3Env [c3Step] 0 c3Snap0).1 = [⟨true, "stale"⟩] ∧
    c3Snap0.url = "stale" ∧
    (∀ n : Nat, ((c3Env.snapshot n).1.url = "fresh")) ∧
    ("stale" : String) ≠ "fresh" := by
  refine ⟨by rfl, rfl, fun n => rfl, by decide⟩

/-- C3 amended: on a step failure, RefineStep is called with the snapshot
already in hand (captured after the previous step, before the failure),
not a freshly recaptured one; if refinement errors, the loop records the
original failure and continues with that same stale snapshot (the
recapture is skipped); if refinement succeeds, the refined step is
executed once and only then is the snapshot recaptured for the next step. -/
theorem c3_refine_uses_prefailure_snapshot {σ : Type}
    (env : LoopEnv σ) (st : ActionStep) (rest : List ActionStep)
    (s0 : σ) (snap0 : Snapshot)
    (r : StepResult) (shot : Option Screenshot) (e : String) (s1 : σ)
    (hfail : env.exec s0 st = (r, shot, some e, s1)) :
    (∀ msg s2, env.refine s1 st snap0 = (Except.error msg, s2) →
      (execLoop env (st :: rest) s0 snap0).1 =
        ⟨false, e⟩ :: (execLoop env rest s2 snap0).1) ∧
    (∀ refined s2, env.refine s1 st snap0 = (Except.ok refined, s2) →
      ∀ r2 shot2 err2 s3, env.exec s2 refined = (r2, shot2, err2, s3) →
      ∀ snapB s4, env.snapshot s3 = (snapB, s4) →
      (execLoop env (st :: rest) s0 snap0).1 =
        r2 :: (execLoop env rest s4 snapB).1) := by
  constructor
  · intro msg s2 href
    have hstep : stepIter env s0 snap0 st = (⟨false, e⟩, none, s2, snap0) := by
      simp only [stepIter, hfail, href]
    rcases htail : execLoop env rest s2 snap0 with ⟨rs, shots, sF, snapF⟩
    simp only [execLoop, hstep, htail]
  · intro refined s2 href r2 shot2 err2 s3 hexec2 snapB s4 hsnap
    have hstep : stepIter env s0 snap0 st = (r2, shot2, s4, snapB) := by
      simp only [stepIter, hfail, href, hexec2, hsnap]
    rcases htail : execLoop env rest s4 snapB with ⟨rs, shots, sF, snapF⟩
    simp only [execLoop, hstep, htail]

/-- Witness for the amended C3, applying both branches at the concrete
observing environment: a refinement error continues with the stale
snapshot, and a successful refinement re-executes once and recaptures. -/
theorem c3_refine_uses_prefailure_snapshot_witness :
    (execLoop c3Env [c3Step] 0 c3Snap0).1 = [⟨true, "stale"⟩] ∧
    (execLoop wEnvRefineErr [wStep "bad"] 0 wSnap).1 = [⟨false, "boom"⟩] := by
  constructor
  · have h := (c3_refine_uses_prefailure_snapshot c3Env c3Step [] 0 c3Snap0
      ⟨false, "boom"⟩ none "boom" 1 (by rfl)).2
      { c3Step with target := "stale" } 1 (by rfl)
      ⟨true, "stale"⟩ none none 2 (by rfl) c3FreshSnap 3 (by rfl)
    exact h
  · have h := (c3_refine_uses_prefailure_snapshot wEnvRefineErr (wStep "bad") [] 0 wSnap
      ⟨false, "boom"⟩ none "boom" 1 (by rfl)).1 "refine failed" 1 (by rfl)
    exact h

/- ===== Claim C4: cancellation and the step loop ===== -/

/-- Task lifecycle states (domain.TaskStatus). -/
inductive TaskStatus where
  | pending
  | running
  | completed
  | failed
  | cancelled
  deriving Repr, DecidableEq

/-- MemoryTaskStore.UpdateStatus (task_store.go 65-74): set the status of
the stored record with the given id, or fail with not-found.  The store is
modelled as an association list from task id to status (the only record
field cancellation touches). -/
def updateStatus (store : List (String × TaskStatus)) (id : String)
    (status : TaskStatus) : Except String (List (String × TaskStatus)) :=
  if store.any (fun kv => kv.1 = id) then
    Except.ok (store.map (fun kv => if kv.1 = id then (kv.1, status) else kv))
  else Except.error "resource not found"

/-- World for the cancellation experiment: the task's stored status is
part of the state the loop threads, together with the trace of steps the
driver actually executed.  The step executor leaves the status untouched
and appends the step it ran. -/
structure CancelWorld where
  status : TaskStatus
  executed : List ActionStep
  deriving Repr, DecidableEq

def c4Snap : Snapshot := ⟨"u", "", []⟩

def c4Env : LoopEnv CancelWorld where
  exec := fun w st => (⟨true, ""⟩, none, none, ⟨w.status, w.executed ++ [st]⟩)
  refine := fun w st _ => (Except.ok st, w)
  snapshot := fun w => (c4Snap, w)

def c4StepA : ActionStep := ⟨1, ActionClick, "a", "", "", false, ""⟩

def c4StepB : ActionStep := ⟨2, ActionClick, "b", "", "", false, ""⟩

/-- C4 fails on the code: the cancel endpoint's UpdateStatus does mark the
stored record cancelled, yet the step loop consults neither the task
record nor any cancellation signal — `execLoop` does not even take the
status as an input — so a task whose status is already `cancelled` before
any step starts still executes every planned step.  Here both steps of a
two-step plan run to completion and the status stays `cancelled`
throughout, contradicting the claim that no not-yet-started step is
executed once cancellation is visible. -/
theorem c4_cancelled_status_does_not_stop_steps :
    updateStatus [("t1", TaskStatus.running)] "t1" TaskStatus.cancelled =
      Except.ok [("t1", TaskStatus.cancelled)] ∧
    (execLoop c4Env [c4StepA, c4StepB] ⟨TaskStatus.cancelled, []⟩ c4Snap).1.length = 2 ∧
    (execLoop c4Env [c4StepA, c4StepB] ⟨TaskStatus.cancelled, []⟩ c4Snap).2.2.1.executed =
      [c4StepA, c4StepB] ∧
    (execLoop c4Env [c4StepA, c4StepB] ⟨TaskStatus.cancelled, []⟩ c4Snap).2.2.1.status =
      TaskStatus.cancelled := by
  refine ⟨by rfl, by rfl, by rfl, by rfl⟩

/- ===== Claim C9: unknown action kinds in executeStep ===== -/

/-- C9: for every ActionStep whose action kind is outside the six
dispatched kinds — including the enumerated kinds `screenshot` and
`scroll` and any unrecognized string — the dispatch switch of executeStep
performs no browser driver action operation (the driver state is returned
untouched and no error arises), and executeStep reports a StepResult with
Success = true and a nil error. -/
theorem c9_unknown_action_is_noop {σ : Type} (brw : BrowserOps σ) (s : σ)
    (step : ActionStep)
    (h : step.action ∉ [ActionNavigate, ActionClick, ActionFill, ActionHover,
      ActionSelect, ActionWait]) :
    dispatchAction brw s step = (none, s) ∧
    (executeStep brw s step).1 = ⟨true, ""⟩ ∧
    (executeStep brw s step).2.2.1 = none := by
  simp only [List.mem_cons, List.not_mem_nil, or_false, not_or] at h
  obtain ⟨h1, h2, h3, h4, h5, h6⟩ := h
  have hd : dispatchAction brw s step = (none, s) := by
    simp only [dispatchAction, h1, h2, h3, h4, h5, h6, if_false]
  refine ⟨hd, ?_, ?_⟩ <;>
    · simp only [executeStep, hd]
      rcases hscr : step.screenshot with _ | _
      · simp
      · simp only [if_true]
        rcases brw.takeScreenshot s with ⟨e?, s2⟩
        rcases e? with _ | e <;> simp

/-- Witness for C9: a `scroll` step (an enumerated kind with no dispatch
case) under a driver whose every operation would error loudly still
yields a successful StepResult and leaves the driver untouched. -/
def c9Browser : BrowserOps Nat where
  navigate := fun n _ => (some "called", n + 1)
  click := fun n _ => (some "called", n + 1)
  fill := fun n _ _ => (some "called", n + 1)
  hover := fun n _ => (some "called", n + 1)
  selectOption := fun n _ _ => (some "called", n + 1)
  waitForSelector := fun n _ => (some "called", n + 1)
  takeScreenshot := fun n => (some "called", n + 1)
  takeSnapshot := fun n => (⟨"", "", []⟩, n + 1)

theorem c9_unknown_action_is_noop_witness :
    dispatchAction c9Browser 0 ⟨1, ActionScroll, "body", "", "", false, ""⟩ = (none, 0) ∧
    (executeStep c9Browser 0 ⟨1, ActionScroll, "body", "", "", false, ""⟩).1 = ⟨true, ""⟩ :=
  let h := c9_unknown_action_is_noop c9Browser 0
    ⟨1, ActionScroll, "body", "", "", false, ""⟩ (by decide)
  ⟨h.1, h.2.1⟩

/- ===== internal/auth/authenticator.go : data model and service ===== -/

/-- Auth kinds are plain strings in the source (`type AuthType string`). -/
abbrev AuthType := String

def AuthTypeNone : AuthType := "none"

def AuthTypeForm : AuthType := "form"

def AuthTypeSSO : AuthType := "sso"

def AuthTypeManual : AuthType := "manual"

def AuthTypeCookie : AuthType := "cookie"

def AuthTypeToken : AuthType := "token"

/-- domain.Cookie; the expiry field is a wall-clock instant (seconds). -/
structure Cookie where
  name : String := ""
  value : String := ""
  domain : String := ""
  path : String := ""
  expires : Nat := 0
  secure : Bool := false
  httpOnly : Bool := false
  deriving Repr, DecidableEq

/-- domain.Credentials. -/
structure Credentials where
  username : String := ""
  password : String := ""
  token : String := ""
  apiKey : String := ""
  deriving Repr, DecidableEq

/-- domain.SSOConfig; only provider and login URL are read by the core. -/
structure SSOConfig where
  provider : String := ""
  loginURL : String := ""
  callbackURL : String := ""
  deriving Repr, DecidableEq

/-- domain.AuthConfig: a type tag plus the payload its strategy needs. -/
structure AuthConfig where
  type : AuthType
  credentials : Option Credentials := none
  ssoConfig : Option SSOConfig := none
  sessionId : String := ""
  cookies : List Cookie := []
  headers : List (String × String) := []
  deriving Repr, DecidableEq

/-- domain.Session: the ephemeral authentication result.  The id is a
fresh UUID in the source, modelled as the empty string. -/
structure Session where
  id : String
  userId : String
  cookies : List Cookie
  headers : List (String × String)
  expiresAt : Nat
  createdAt : Nat
  deriving Repr, DecidableEq

/-- Session lifetime: every strategy stamps `time.Now().Add(24 * time.Hour)`,
modelled in seconds. -/
def sessionTTL : Nat := 86400

/-- Session constructor shared by every strategy: expiry is the current
clock plus 24 hours. -/
def mkSession (now : Nat) (cookies : List Cookie)
    (headers : List (String × String)) : Session :=
  ⟨"", "", cookies, headers, now + sessionTTL, now⟩

/-- Browser driver and ambient-context operations the auth service uses,
as oracles over a world state `σ`.  `clock` reads the wall clock and
`ctxDone` polls the caller's cancellation signal. -/
structure AuthBrowser (σ : Type) where
  waitForSelector : σ → String → Option String × σ
  waitForNavigation : σ → Option String × σ
  fill : σ → String → String → Option String × σ
  click : σ → String → Option String × σ
  getCookies : σ → Except String (List Cookie) × σ
  setCookies : σ → List Cookie → Option String × σ
  getCurrentURL : σ → String × σ
  ctxDone : σ → Bool
  clock : σ → Nat

/-- Substring occurrence on character lists (strings.Contains). -/
def occursIn (needle : List Char) : List Char → Bool
  | [] => needle.isEmpty
  | c :: cs => (List.isPrefixOf needle (c :: cs) : Bool) || occursIn needle cs

/-- strings.Contains. -/
def containsSub (hay needle : String) : Bool := occursIn needle.data hay.data

/-- strings.ToLower, character by character. -/
def toLowerStr (s : String) : String := String.mk (s.data.map Char.toLower)

def ssoIndicators : List String := ["login", "signin", "auth", "sso", "oauth", "saml"]

/-- Service.isOnSSOPage: a configured login URL wins; otherwise match the
lowercased url against the common SSO tokens. -/
def isOnSSOPage (url : String) (sso : SSOConfig) : Bool :=
  if sso.loginURL ≠ "" then containsSub url sso.loginURL
  else ssoIndicators.any (fun ind => containsSub (toLowerStr url) ind)

def loginIndicators : List String := ["login", "signin", "sign-in", "auth"]

/-- Service.isOnLoginPage. -/
def isOnLoginPage (url : String) : Bool :=
  loginIndicators.any (fun ind => containsSub (toLowerStr url) ind)

/-- Candidate username selectors tried in order by the form strategy. -/
def formUsernameSelectors : List String :=
  ["input[name=\x27username\x27]", "input[name=\x27email\x27]",
   "input[type=\x27email\x27]", "input[id=\x27username\x27]",
   "input[id=\x27email\x27]"]

/-- Candidate submit selectors tried in order by the form strategy. -/
def formSubmitSelectors : List String :=
  ["button[type=\x27submit\x27]", "input[type=\x27submit\x27]",
   "button:has-text(\x27登录\x27)", "button:has-text(\x27Login\x27)"]

/-- Try to fill each candidate selector until one succeeds (the loop
breaks on the first nil error); failures are swallowed. -/
def tryFillAny {σ : Type} (brw : AuthBrowser σ) (s : σ) (value : String) :
    List String → σ
  | [] => s
  | sel :: rest =>
      match brw.fill s sel value with
      | (none, s1) => s1
      | (some _, s1) => tryFillAny brw s1 value rest

/-- Try to click each candidate selector until one succeeds. -/
def tryClickAny {σ : Type} (brw : AuthBrowser σ) (s : σ) : List String → σ
  | [] => s
  | sel :: rest =>
      match brw.click s sel with
      | (none, s1) => s1
      | (some _, s1) => tryClickAny brw s1 rest

/-- Service.createEmptySession: an empty session expiring in 24 hours. -/
def createEmptySession {σ : Type} (brw : AuthBrowser σ) (s : σ) : Session :=
  mkSession (brw.clock s) [] []

/-- Service.authenticateWithForm: wait for a password input, try the
username candidates, fill the password, try the submit candidates, settle,
then harvest cookies into a fresh session. -/
def authenticateWithForm {σ : Type} (brw : AuthBrowser σ) (s : σ)
    (cfg : AuthConfig) : Except String Session × σ :=
  match cfg.credentials with
  | none => (Except.error "credentials required for form auth", s)
  | some creds =>
      match brw.waitForSelector s "input[type=\x27password\x27]" with
      | (some e, s1) => (Except.error ("login form not found: " ++ e), s1)
      | (none, s1) =>
          let s2 := tryFillAny brw s1 creds.username formUsernameSelectors
          match brw.fill s2 "input[type=\x27password\x27]" creds.password with
          | (some e, s3) => (Except.error ("fill password: " ++ e), s3)
          | (none, s3) =>
              let s4 := tryClickAny brw s3 formSubmitSelectors
              match brw.getCookies s4 with
              | (Except.error e, s5) => (Except.error ("get cookies: " ++ e), s5)
              | (Except.ok cookies, s5) =>
                  (Except.ok (mkSession (brw.clock s5) cookies []), s5)

/-- Candidate username selectors of the generic SSO login sequence. -/
def ssoUsernameSelectors : List String :=
  ["input[name=\x27username\x27]", "input[name=\x27email\x27]",
   "input[type=\x27email\x27]", "input[id=\x27username\x27]"]

/-- Candidate submit selectors of the generic SSO login sequence. -/
def ssoSubmitSelectors : List String :=
  ["button[type=\x27submit\x27]", "input[type=\x27submit\x27]", "#submit"]

/-- Service.performSSOLogin: the generic fill/submit sequence. -/
def performSSOLogin {σ : Type} (brw : AuthBrowser σ) (s : σ)
    (creds : Credentials) : Option String × σ :=
  let s1 := tryFillAny brw s creds.username ssoUsernameSelectors
  match brw.fill s1 "input[type=\x27password\x27]" creds.password with
  | (some e, s2) => (some ("fill password: " ++ e), s2)
  | (none, s2) => (none, tryClickAny brw s2 ssoSubmitSelectors)

/-- Service.authenticateWithSSO: wait for the redirect, run the generic
login sequence if still on an SSO page and credentials were supplied, wait
for the callback, then harvest cookies. -/
def authenticateWithSSO {σ : Type} (brw : AuthBrowser σ) (s : σ)
    (cfg : AuthConfig) : Except String Session × σ :=
  match cfg.ssoConfig with
  | none => (Except.error "sso config required", s)
  | some sso =>
      match brw.waitForNavigation s with
      | (some e, s1) => (Except.error ("wait for sso redirect: " ++ e), s1)
      | (none, s1) =>
          match brw.getCurrentURL s1 with
          | (url, s2) =>
              let afterLogin :=
                if isOnSSOPage url sso then
                  match cfg.credentials with
                  | some creds =>
                      match performSSOLogin brw s2 creds with
                      | (some e, s3) => Except.error (("sso login: " ++ e), s3)
                      | (none, s3) => Except.ok s3
                  | none => Except.ok s2
                else Except.ok s2
              match afterLogin with
              | Except.error (e, s3) => (Except.error e, s3)
              | Except.ok s3 =>
                  match brw.getCookies s3 with
                  | (Except.error e, s4) => (Except.error ("get cookies: " ++ e), s4)
                  | (Except.ok cookies, s4) =>
                      (Except.ok (mkSession (brw.clock s4) cookies []), s4)

/-- Poll loop of Service.authenticateManually: every 2 seconds check the
caller's cancellation signal and the current URL; leave the loop when the
URL no longer looks like a login page and harvest cookies.  The 5-minute
ceiling over the 2-second tick is 150 iterations of fuel. -/
def manualLoop {σ : Type} (brw : AuthBrowser σ) : Nat → σ → Except String Session × σ
  | 0, s => (Except.error "manual login timeout", s)
  | fuel + 1, s =>
      if brw.ctxDone s then (Except.error "context cancelled", s)
      else
        match brw.getCurrentURL s with
        | (url, s1) =>
            if isOnLoginPage url then manualLoop brw fuel s1
            else
              match brw.getCookies s1 with
              | (Except.error e, s2) => (Except.error ("get cookies: " ++ e), s2)
              | (Except.ok cookies, s2) =>
                  (Except.ok (mkSession (brw.clock s2) cookies []), s2)

/-- Service.authenticateManually. -/
def authenticateManually {σ : Type} (brw : AuthBrowser σ) (s : σ)
    (_cfg : AuthConfig) : Except String Session × σ :=
  manualLoop brw 150 s

/-- Service.authenticateWithCookies: inject the literal cookie set and
wrap it in a session; fails when no cookies were supplied. -/
def authenticateWithCookies {σ : Type} (brw : AuthBrowser σ) (s : σ)
    (cfg : AuthConfig) : Except String Session × σ :=
  if cfg.cookies.isEmpty then (Except.error "cookies required", s)
  else
    match brw.setCookies s cfg.cookies with
    | (some e, s1) => (Except.error ("set cookies: " ++ e), s1)
    | (none, s1) => (Except.ok (mkSession (brw.clock s1) cfg.cookies []), s1)

/-- Service.authenticateWithToken: wrap the bearer token in a
headers-only session; fails when no token is present. -/
def authenticateWithToken {σ : Type} (brw : AuthBrowser σ) (s : σ)
    (cfg : AuthConfig) : Except String Session × σ :=
  match cfg.credentials with
  | none => (Except.error "token required", s)
  | some creds =>
      if creds.token = "" then (Except.error "token required", s)
      else
        (Except.ok (mkSession (brw.clock s) []
          [("Authorization", "Bearer " ++ creds.token)]), s)

/-- Service.Authenticate (authenticator.go 32-55): dispatch on the
config's type tag; an unknown tag is an error. -/
def authenticate {σ : Type} (brw : AuthBrowser σ) (s : σ)
    (cfg : AuthConfig) : Except String Session × σ :=
  if cfg.type = AuthTypeNone then (Except.ok (createEmptySession brw s), s)
  else if cfg.type = AuthTypeForm then authenticateWithForm brw s cfg
  else if cfg.type = AuthTypeSSO then authenticateWithSSO brw s cfg
  else if cfg.type = AuthTypeManual then authenticateManually brw s cfg
  else if cfg.type = AuthTypeCookie then authenticateWithCookies brw s cfg
  else if cfg.type = AuthTypeToken then authenticateWithToken brw s cfg
  else (Except.error ("unsupported auth type: " ++ cfg.type), s)

/-- Service.ValidateSession (authenticator.go 58-66): nil sessions and
sessions whose expiry the clock has passed are invalid; the error
component is always nil. -/
def validateSession (now : Nat) (sess : Option Session) : Bool × Option String :=
  match sess with
  | none => (false, none)
  | some s => if now > s.expiresAt then (false, none) else (true, none)

/- ===== Claim C6 / C7: authenticator contracts ===== -/

/-- An authentication outcome is good when any session it returns expires
exactly 24 hours after the clock of the state it was created in. -/
def goodOutcome {σ : Type} (brw : AuthBrowser σ) (out : Except String Session × σ) : Prop :=
  ∀ sess s', out = (Except.ok sess, s') → sess.expiresAt = brw.clock s' + sessionTTL

theorem goodOutcome_form {σ : Type} (brw : AuthBrowser σ) (s : σ) (cfg : AuthConfig) :
    goodOutcome brw (authenticateWithForm brw s cfg) := by
  intro sess s' h
  unfold authenticateWithForm at h
  try simp only [] at h
  repeat' split at h
  all_goals first
    | (rw [Prod.mk.injEq] at h
       obtain ⟨h1, h2⟩ := h
       injection h1 with h1
       subst h2
       subst h1
       rfl)
    | (rw [Prod.mk.injEq] at h
       obtain ⟨h1, h2⟩ := h
       injection h1)

theorem goodOutcome_sso {σ : Type} (brw : AuthBrowser σ) (s : σ) (cfg : AuthConfig) :
    goodOutcome brw (authenticateWithSSO brw s cfg) := by
  intro sess s' h
  unfold authenticateWithSSO at h
  try simp only [] at h
  repeat' split at h
  all_goals first
    | (rw [Prod.mk.injEq] at h
       obtain ⟨h1, h2⟩ := h
       injection h1 with h1
       subst h2
       subst h1
       rfl)
    | (rw [Prod.mk.injEq] at h
       obtain ⟨h1, h2⟩ := h
       injection h1)

theorem goodOutcome_manualLoop {σ : Type} (brw : AuthBrowser σ) (fuel : Nat) (s : σ) :
    goodOutcome brw (manualLoop brw fuel s) := by
  induction fuel generalizing s with
  | zero =>
      intro sess s' h
      simp [manualLoop] at h
  | succ n ih =>
      intro sess s' h
      unfold manualLoop at h
      try simp only [] at h
      repeat' split at h
      all_goals first
        | (exact ih _ sess s' h)
        | (rw [Prod.mk.injEq] at h
           obtain ⟨h1, h2⟩ := h
           injection h1 with h1
           subst h2
           subst h1
           rfl)
        | (rw [Prod.mk.injEq] at h
           obtain ⟨h1, h2⟩ := h
           injection h1)

theorem goodOutcome_cookie {σ : Type} (brw : AuthBrowser σ) (s : σ) (cfg : AuthConfig) :
    goodOutcome brw (authenticateWithCookies brw s cfg) := by
  intro sess s' h
  unfold authenticateWithCookies at h
  try simp only [] at h
  repeat' split at h
  all_goals first
    | (rw [Prod.mk.injEq] at h
       obtain ⟨h1, h2⟩ := h
       injection h1 with h1
       subst h2
       subst h1
       rfl)
    | (rw [Prod.mk.injEq] at h
       obtain ⟨h1, h2⟩ := h
       injection h1)

theorem goodOutcome_token {σ : Type} (brw : AuthBrowser σ) (s : σ) (cfg : AuthConfig) :
    goodOutcome brw (authenticateWithToken brw s cfg) := by
  intro sess s' h
  unfold authenticateWithToken at h
  try simp only [] at h
  repeat' split at h
  all_goals first
    | (rw [Prod.mk.injEq] at h
       obtain ⟨h1, h2⟩ := h
       injection h1 with h1
       subst h2
       subst h1
       rfl)
    | (rw [Prod.mk.injEq] at h
       obtain ⟨h1, h2⟩ := h
       injection h1)

/-- C6: for every AuthConfig variant, Authenticate either returns a
session whose expiry is strictly in the future (relative to the clock at
return) or returns an error; for type `none` it returns the empty session
immediately without touching the driver and never errors; for type
`cookie` it fails when no cookies were supplied; for type `token` it fails
when no token is present (credentials absent or token empty). -/
theorem c6_authenticate_future_session_or_error {σ : Type}
    (brw : AuthBrowser σ) (s : σ) (cfg : AuthConfig) :
    (∀ sess s', authenticate brw s cfg = (Except.ok sess, s') →
        brw.clock s' < sess.expiresAt) ∧
    (cfg.type = AuthTypeNone →
        authenticate brw s cfg = (Except.ok (createEmptySession brw s), s)) ∧
    (cfg.type = AuthTypeCookie → cfg.cookies = [] →
        authenticate brw s cfg = (Except.error "cookies required", s)) ∧
    (cfg.type = AuthTypeToken →
        (∀ creds, cfg.credentials = some creds → creds.token = "") →
        authenticate brw s cfg = (Except.error "token required", s)) := by
  refine ⟨?_, ?_, ?_, ?_⟩
  · intro sess s' h
    have key : sess.expiresAt = brw.clock s' + sessionTTL := by
      unfold authenticate at h
      split at h
      · simp only [Prod.mk.injEq] at h
        obtain ⟨h1, h2⟩ := h
        cases h1
        subst h2
        simp [createEmptySession, mkSession]
      · split at h
        · exact goodOutcome_form brw s cfg sess s' h
        · split at h
          · exact goodOutcome_sso brw s cfg sess s' h
          · split at h
            · exact goodOutcome_manualLoop brw 150 s sess s' h
            · split at h
              · exact goodOutcome_cookie brw s cfg sess s' h
              · split at h
                · exact goodOutcome_token brw s cfg sess s' h
                · simp at h
    rw [key]
    simp [sessionTTL]
  · intro htype
    unfold authenticate
    simp [htype, AuthTypeNone]
  · intro htype hempty
    simp only [authenticate, htype, AuthTypeCookie, AuthTypeNone, AuthTypeForm,
      AuthTypeSSO, AuthTypeManual]
    simp only [authenticateWithCookies, hempty]
    simp
  · intro htype htoken
    simp only [authenticate, htype, AuthTypeToken, AuthTypeNone, AuthTypeForm,
      AuthTypeSSO, AuthTypeManual, AuthTypeCookie]
    simp only [authenticateWithToken]
    cases hc : cfg.credentials with
    | none => simp
    | some creds =>
        have := htoken creds hc
        simp [this]

/-- Trivial concrete driver for the C6 witness: every operation succeeds
without side effects and the clock reads zero. -/
def cAuthBrowser : AuthBrowser Unit where
  waitForSelector := fun s _ => (none, s)
  waitForNavigation := fun s => (none, s)
  fill := fun s _ _ => (none, s)
  click := fun s _ => (none, s)
  getCookies := fun s => (Except.ok [], s)
  setCookies := fun s _ => (none, s)
  getCurrentURL := fun s => ("https://example.com/home", s)
  ctxDone := fun _ => false
  clock := fun _ => 0

/-- Witness for C6 at the three concrete configs the claim singles out. -/
theorem c6_authenticate_future_session_or_error_witness :
    authenticate cAuthBrowser () { type := AuthTypeNone } =
      (Except.ok (createEmptySession cAuthBrowser ()), ()) ∧
    authenticate cAuthBrowser () { type := AuthTypeCookie } =
      (Except.error "cookies required", ()) ∧
    authenticate cAuthBrowser () { type := AuthTypeToken } =
      (Except.error "token required", ()) ∧
    cAuthBrowser.clock () < (createEmptySession cAuthBrowser ()).expiresAt := by
  have hNone := c6_authenticate_future_session_or_error cAuthBrowser ()
    { type := AuthTypeNone }
  have hCookie := c6_authenticate_future_session_or_error cAuthBrowser ()
    { type := AuthTypeCookie }
  have hToken := c6_authenticate_future_session_or_error cAuthBrowser ()
    { type := AuthTypeToken }
  have e1 := hNone.2.1 rfl
  have e2 := hCookie.2.2.1 rfl rfl
  have e3 := hToken.2.2.2 rfl (fun creds hc => by simp at hc)
  exact ⟨e1, e2, e3, hNone.1 (createEmptySession cAuthBrowser ()) () e1⟩

/-- C7 counterexample: at the boundary instant where the clock equals the
session's expiry, ValidateSession returns true although the expiry is not
in the future — so validity is not equivalent to "non-nil with expiry in
the future" as the claim states. -/
def c7Sess : Session := ⟨"", "", [], [], 5, 0⟩

theorem c7_boundary_counterexample :
    (validateSession 5 (some c7Sess)).1 = true ∧ ¬ (5 < c7Sess.expiresAt) := by
  decide

/-- C7 amended: ValidateSession returns false for a nil session and false
for a session whose expiry is strictly in the past, and true otherwise
(including the boundary instant where the expiry equals the clock):
a session is valid iff it is non-nil and not yet expired
(`now ≤ expires_at`); the error component is always nil. -/
theorem c7_validate_session_not_expired (now : Nat) (sess : Option Session) :
    (validateSession now sess).2 = none ∧
    ((validateSession now sess).1 = true ↔
      ∃ s, sess = some s ∧ now ≤ s.expiresAt) := by
  cases sess with
  | none => simp [validateSession]
  | some s =>
      by_cases h : now > s.expiresAt
      · simp [validateSession, h]
      · simp [validateSession, h]
        omega

/- ===== planner LLM clients (unnamed planner client source, part_005) ===== -/

/-- LLM provider tags are plain strings in the source
(`type LLMProvider string`). -/
abbrev LLMProvider := String

def LLMProviderOpenAI : LLMProvider := "openai"

def LLMProviderAnthropic : LLMProvider := "anthropic"

def LLMProviderDeepSeek : LLMProvider := "deepseek"

def LLMProviderQwen : LLMProvider := "qwen"

def LLMProviderMoonshot : LLMProvider := "moonshot"

def LLMProviderOllama : LLMProvider := "ollama"

/-- domain.LLMConfig; the optional tunables (temperature, max tokens and
friends) only shape the request body, which this embedding does not model,
so they are elided. -/
structure LLMConfig where
  provider : LLMProvider
  model : String := ""
  endpoint : String := ""
  apiKey : String := ""
  deriving Repr, DecidableEq

/-- Endpoint defaulting of NewOpenAICompatibleClient: a blank endpoint is
replaced by the known provider's base URL (and left blank for providers
without a default); a non-blank endpoint is kept. -/
def resolveOpenAIEndpoint (cfg : LLMConfig) : String :=
  if cfg.endpoint = "" then
    if cfg.provider = LLMProviderOpenAI then "https://api.openai.com/v1"
    else if cfg.provider = LLMProviderDeepSeek then "https://api.deepseek.com/v1"
    else if cfg.provider = LLMProviderOllama then "http://localhost:11434/v1"
    else if cfg.provider = LLMProviderMoonshot then "https://api.moonshot.cn/v1"
    else if cfg.provider = LLMProviderQwen then
      "https://dashscope.aliyuncs.com/compatible-mode/v1"
    else ""
  else cfg.endpoint

/-- NewOpenAICompatibleClient: the constructed client is the config with
its endpoint resolved (the Go constructor mutates config.Endpoint in
place). -/
def newOpenAICompatibleClient (cfg : LLMConfig) : LLMConfig :=
  { cfg with endpoint := resolveOpenAIEndpoint cfg }

/-- NewAnthropicClient: a blank endpoint defaults to the Anthropic base
URL. -/
def newAnthropicClient (cfg : LLMConfig) : LLMConfig :=
  { cfg with endpoint := if cfg.endpoint = "" then "https://api.anthropic.com/v1"
                         else cfg.endpoint }

/-- Request shape observable at the HTTP boundary: target URL and headers
(the JSON body is provider-specific and not needed by the claims). -/
structure HttpRequest where
  url : String
  headers : List (String × String)
  deriving Repr, DecidableEq

/-- Request construction of OpenAICompatibleClient.Chat: POST to
`<endpoint>/chat/completions`; the bearer Authorization header is set only
when an API key is configured. -/
def openAIChatRequest (client : LLMConfig) : HttpRequest :=
  { url := client.endpoint ++ "/chat/completions",
    headers := [("Content-Type", "application/json")] ++
      (if client.apiKey ≠ "" then
        [("Authorization", "Bearer " ++ client.apiKey)] else []) }

/-- Request construction of AnthropicClient.Chat: POST to
`<endpoint>/messages` with the x-api-key and anthropic-version headers
(no bearer Authorization header at all). -/
def anthropicChatRequest (client : LLMConfig) : HttpRequest :=
  { url := client.endpoint ++ "/messages",
    headers := [("Content-Type", "application/json"),
                ("x-api-key", client.apiKey),
                ("anthropic-version", "2023-06-01")] }

/-- The two client shapes LLMClientFactory.NewClient can build. -/
inductive LLMClient where
  | openAICompatible (cfg : LLMConfig)
  | anthropic (cfg : LLMConfig)
  deriving Repr, DecidableEq

/-- LLMClientFactory.NewClient: the Anthropic tag selects the Anthropic
client and every other tag the OpenAI-compatible client; the error result
is never used. -/
def newClient (cfg : LLMConfig) : Except String LLMClient :=
  if cfg.provider = LLMProviderAnthropic then
    Except.ok (LLMClient.anthropic (newAnthropicClient cfg))
  else Except.ok (LLMClient.openAICompatible (newOpenAICompatibleClient cfg))

/- ===== Claim C8: factory defaults and request shapes ===== -/

/-- C8: for provider `openai` with a blank endpoint the constructed
client's effective endpoint is the OpenAI base URL and, when an API key is
set, its Chat posts to `<endpoint>/chat/completions` with a bearer
Authorization header; for provider `anthropic` the constructed client's
Chat posts to `<endpoint>/messages` with an x-api-key header and an
anthropic-version header and never a bearer Authorization header. -/
theorem c8_client_endpoints_and_headers (cfg acfg : LLMConfig)
    (hp : cfg.provider = LLMProviderOpenAI) (he : cfg.endpoint = "")
    (hk : cfg.apiKey ≠ "")
    (hap : acfg.provider = LLMProviderAnthropic) :
    (newOpenAICompatibleClient cfg).endpoint = "https://api.openai.com/v1" ∧
    (openAIChatRequest (newOpenAICompatibleClient cfg)).url =
      (newOpenAICompatibleClient cfg).endpoint ++ "/chat/completions" ∧
    ("Authorization", "Bearer " ++ cfg.apiKey) ∈
      (openAIChatRequest (newOpenAICompatibleClient cfg)).headers ∧
    (match newClient acfg with
      | Except.ok (LLMClient.anthropic c) =>
          (anthropicChatRequest c).url = c.endpoint ++ "/messages" ∧
          ("x-api-key", c.apiKey) ∈ (anthropicChatRequest c).headers ∧
          ("anthropic-version", "2023-06-01") ∈ (anthropicChatRequest c).headers ∧
          ∀ v, ("Authorization", v) ∉ (anthropicChatRequest c).headers
      | _ => False) := by
  refine ⟨?_, rfl, ?_, ?_⟩
  · simp [newOpenAICompatibleClient, resolveOpenAIEndpoint, hp, he]
  · simp [openAIChatRequest, newOpenAICompatibleClient, hk]
  · simp only [newClient, hap, LLMProviderAnthropic, if_pos rfl]
    refine ⟨rfl, ?_, ?_, ?_⟩
    · simp [anthropicChatRequest]
    · simp [anthropicChatRequest]
    · intro v
      simp [anthropicChatRequest]

/-- Witness for C8 at concrete openai and anthropic configs. -/
theorem c8_client_endpoints_and_headers_witness :
    (newOpenAICompatibleClient ⟨"openai", "gpt-4o", "", "k"⟩).endpoint =
      "https://api.openai.com/v1" ∧
    ("Authorization", "Bearer k") ∈
      (openAIChatRequest (newOpenAICompatibleClient ⟨"openai", "gpt-4o", "", "k"⟩)).headers :=
  let h := c8_client_endpoints_and_headers ⟨"openai", "gpt-4o", "", "k"⟩
    ⟨"anthropic", "claude", "", "ak"⟩ rfl rfl (by decide) rfl
  ⟨h.1, h.2.2.1⟩

/- ===== Claim C10: NewClient is total ===== -/

/-- C10: LLMClientFactory.NewClient returns a client and a nil error for
every LLMConfig: the anthropic tag yields the Anthropic client and every
other tag, including unknown strings, yields the OpenAI-compatible client,
so ExecuteTask's fatal create-llm-client branch can never be taken. -/
theorem c10_new_client_never_fails (cfg : LLMConfig) :
    (∃ c, newClient cfg = Except.ok c) ∧
    (cfg.provider = LLMProviderAnthropic →
      newClient cfg = Except.ok (LLMClient.anthropic (newAnthropicClient cfg))) ∧
    (cfg.provider ≠ LLMProviderAnthropic →
      newClient cfg =
        Except.ok (LLMClient.openAICompatible (newOpenAICompatibleClient cfg))) := by
  refine ⟨?_, ?_, ?_⟩
  · by_cases h : cfg.provider = LLMProviderAnthropic
    · exact ⟨LLMClient.anthropic (newAnthropicClient cfg), by simp [newClient, h]⟩
    · exact ⟨LLMClient.openAICompatible (newOpenAICompatibleClient cfg),
        by simp [newClient, h]⟩
  · intro h
    simp [newClient, h]
  · intro h
    simp [newClient, h]

/-- Witness for C10 at an unknown provider tag and at the anthropic tag. -/
theorem c10_new_client_never_fails_witness :
    newClient ⟨"no-such-provider", "m", "", ""⟩ =
      Except.ok (LLMClient.openAICompatible
        (newOpenAICompatibleClient ⟨"no-such-provider", "m", "", ""⟩)) ∧
    newClient ⟨"anthropic", "m", "", ""⟩ =
      Except.ok (LLMClient.anthropic (newAnthropicClient ⟨"anthropic", "m", "", ""⟩)) :=
  ⟨(c10_new_client_never_fails ⟨"no-such-provider", "m", "", ""⟩).2.2 (by decide),
   (c10_new_client_never_fails ⟨"anthropic", "m", "", ""⟩).2.1 rfl⟩

/- ===== encoding/json, as used by AIPlanner.ParseTask ===== -/

/- The planner parses model replies with Go's encoding/json into the
TaskPlan shape.  The embedding models the fragment of JSON that shape can
exercise: objects, arrays, strings with the basic escapes, integer
numbers, booleans and null (fractional numbers and unicode escapes never
appear in a plan and are out of scope).  Decoding follows Go's rules for
the TaskPlan struct: unknown object keys are ignored, keys match struct
tags case-insensitively with the last matching member winning, a missing
member or JSON null leaves the field at its zero value, and a type
mismatch is an error. -/

def lbrace : Char := Char.ofNat 123

def rbrace : Char := Char.ofNat 125

/-- JSON values (numbers restricted to integers; see above). -/
inductive Json where
  | null
  | bool (b : Bool)
  | num (n : Int)
  | str (s : String)
  | arr (elems : List Json)
  | obj (fields : List (String × Json))
  deriving Repr

/-- Skip JSON whitespace. -/
def skipWs : List Char → List Char
  | [] => []
  | c :: cs =>
      if c = ' ' ∨ c = '\n' ∨ c = '\t' ∨ c = '\r' then skipWs cs else c :: cs

/-- Scan a JSON string body after the opening quote, unescaping the basic
escapes; the closing quote ends the string. -/
def parseStringBody (acc : List Char) : List Char → Option (String × List Char)
  | [] => none
  | '"' :: rest => some (String.mk acc.reverse, rest)
  | '\\' :: c :: rest =>
      let d := if c = 'n' then '\n'
               else if c = 't' then '\t'
               else if c = 'r' then '\r'
               else c
      parseStringBody (d :: acc) rest
  | c :: rest => parseStringBody (c :: acc) rest

/-- Take the leading run of decimal digits. -/
def takeDigits : List Char → List Char × List Char
  | [] => ([], [])
  | c :: cs =>
      if c.isDigit then
        match takeDigits cs with
        | (ds, rest) => (c :: ds, rest)
      else ([], c :: cs)

/-- Value of a digit run. -/
def digitsVal : List Char → Nat → Nat
  | [], acc => acc
  | c :: cs, acc => digitsVal cs (acc * 10 + (c.toNat - 48))

/-- Parse a nonempty digit run into a number. -/
def parseDigits (cs : List Char) : Option (Nat × List Char) :=
  match takeDigits cs with
  | ([], _) => none
  | (ds, rest) => some (digitsVal ds 0, rest)

/-- Parsing modes of the recursive-descent scanner: a JSON value, the
member list after an opening brace, a nonempty member list, the element
list after an opening bracket, and a nonempty element list.  The member
and element modes return their result wrapped as `Json.obj` / `Json.arr`. -/
inductive ParseMode where
  | value
  | objFields
  | members
  | arrElems
  | elems
  deriving Repr, DecidableEq

/-- Fuel-bounded recursive-descent parser for the JSON fragment; a single
function structurally recursive on the fuel so that it evaluates by
reduction. -/
def parseRun : Nat → ParseMode → List Char → Option (Json × List Char)
  | 0, _, _ => none
  | fuel + 1, ParseMode.value, cs =>
      (match skipWs cs with
       | [] => none
       | c :: rest =>
           if c = '"' then
             match parseStringBody [] rest with
             | some (s, r) => some (Json.str s, r)
             | none => none
           else if c = lbrace then parseRun fuel ParseMode.objFields rest
           else if c = '[' then parseRun fuel ParseMode.arrElems rest
           else if c = 't' then
             match rest with
             | 'r' :: 'u' :: 'e' :: r => some (Json.bool true, r)
             | _ => none
           else if c = 'f' then
             match rest with
             | 'a' :: 'l' :: 's' :: 'e' :: r => some (Json.bool false, r)
             | _ => none
           else if c = 'n' then
             match rest with
             | 'u' :: 'l' :: 'l' :: r => some (Json.null, r)
             | _ => none
           else if c = '-' then
             match parseDigits rest with
             | some (n, r) => some (Json.num (-(n : Int)), r)
             | none => none
           else if c.isDigit then
             match parseDigits (c :: rest) with
             | some (n, r) => some (Json.num ((n : Int)), r)
             | none => none
           else none)
  | fuel + 1, ParseMode.objFields, cs =>
      (match skipWs cs with
       | [] => none
       | c :: rest =>
           if c = rbrace then some (Json.obj [], rest)
           else parseRun fuel ParseMode.members (c :: rest))
  | fuel + 1, ParseMode.members, cs =>
      (match skipWs cs with
       | '"' :: rest =>
           (match parseStringBody [] rest with
            | some (key, r1) =>
                (match skipWs r1 with
                 | ':' :: r2 =>
                     (match parseRun fuel ParseMode.value r2 with
                      | some (v, r3) =>
                          (match skipWs r3 with
                           | ',' :: r4 =>
                               (match parseRun fuel ParseMode.members r4 with
                                | some (Json.obj fields, r5) =>
                                    some (Json.obj ((key, v) :: fields), r5)
                                | _ => none)
                           | c2 :: r4 =>
                               if c2 = rbrace then some (Json.obj [(key, v)], r4)
                               else none
                           | [] => none)
                      | none => none)
                 | _ => none)
            | none => none)
       | _ => none)
  | fuel + 1, ParseMode.arrElems, cs =>
      (match skipWs cs with
       | ']' :: rest => some (Json.arr [], rest)
       | cs1 => parseRun fuel ParseMode.elems cs1)
  | fuel + 1, ParseMode.elems, cs =>
      (match parseRun fuel ParseMode.value cs with
       | some (v, r1) =>
           (match skipWs r1 with
            | ',' :: r2 =>
                (match parseRun fuel ParseMode.elems r2 with
                 | some (Json.arr elems, r3) => some (Json.arr (v :: elems), r3)
                 | _ => none)
            | ']' :: r2 => some (Json.arr [v], r2)
            | _ => none)
       | none => none)

/-- Parse a whole string as exactly one JSON value (json.Unmarshal errors
on trailing non-whitespace).  At most three fuel steps separate two input
characters being consumed, so the fuel is ample. -/
def jsonParse (s : String) : Option Json :=
  match parseRun (3 * s.data.length + 8) ParseMode.value s.data with
  | some (v, rest) => if (skipWs rest).isEmpty then some v else none
  | none => none

/-- Case-insensitive key comparison (Go matches JSON keys to struct tags
with ASCII case folding). -/
def foldEq (a b : String) : Bool :=
  a.data.map Char.toLower = b.data.map Char.toLower

/-- Look up a struct field among object members: the last member whose key
fold-matches wins, as later members overwrite earlier assignments. -/
def lookupField (key : String) : List (String × Json) → Option Json
  | [] => none
  | (k, v) :: rest =>
      match lookupField key rest with
      | some v' => some v'
      | none => if foldEq k key then some v else none

/-- Decode into a Go string field: missing member or null leaves the zero
value. -/
def asString : Option Json → Except String String
  | none => Except.ok ""
  | some Json.null => Except.ok ""
  | some (Json.str s) => Except.ok s
  | some _ => Except.error "cannot unmarshal into string field"

/-- Decode into a Go int field. -/
def asInt : Option Json → Except String Int
  | none => Except.ok 0
  | some Json.null => Except.ok 0
  | some (Json.num n) => Except.ok n
  | some _ => Except.error "cannot unmarshal into int field"

/-- Decode into a Go bool field. -/
def asBool : Option Json → Except String Bool
  | none => Except.ok false
  | some Json.null => Except.ok false
  | some (Json.bool b) => Except.ok b
  | some _ => Except.error "cannot unmarshal into bool field"

/-- Decode into a Go slice field: missing member or null leaves a nil
slice. -/
def asArr : Option Json → Except String (List Json)
  | none => Except.ok []
  | some Json.null => Except.ok []
  | some (Json.arr xs) => Except.ok xs
  | some _ => Except.error "cannot unmarshal into slice field"

/-- Decode one plan step from its JSON object (planner.ActionStep tags:
order, action, target, value, wait_for, screenshot, description). -/
def decodeStep : Json → Except String ActionStep
  | Json.null => Except.ok ⟨0, "", "", "", "", false, ""⟩
  | Json.obj fields => do
      let order ← asInt (lookupField "order" fields)
      let action ← asString (lookupField "action" fields)
      let target ← asString (lookupField "target" fields)
      let value ← asString (lookupField "value" fields)
      let waitFor ← asString (lookupField "wait_for" fields)
      let shot ← asBool (lookupField "screenshot" fields)
      let desc ← asString (lookupField "description" fields)
      Except.ok ⟨order, action, target, value, waitFor, shot, desc⟩
  | _ => Except.error "cannot unmarshal into ActionStep"

/-- Decode a TaskPlan from a JSON value (tags: task_id, description,
steps). -/
def decodeTaskPlan : Json → Except String TaskPlan
  | Json.null => Except.ok ⟨"", "", []⟩
  | Json.obj fields => do
      let tid ← asString (lookupField "task_id" fields)
      let desc ← asString (lookupField "description" fields)
      let stepsJ ← asArr (lookupField "steps" fields)
      let steps ← stepsJ.mapM decodeStep
      Except.ok ⟨tid, desc, steps⟩
  | _ => Except.error "cannot unmarshal into TaskPlan"

/-- json.Unmarshal of a model reply into a TaskPlan. -/
def unmarshalTaskPlan (s : String) : Except String TaskPlan :=
  match jsonParse s with
  | none => Except.error "invalid json"
  | some j => decodeTaskPlan j

/- ===== extractJSON and ParseTask (unnamed planner source, part_005) ===== -/

/-- The scanning loop of extractJSON (part_005, 238-263): remember the
index of the first opening brace, keep a signed depth over all braces
(string contents are not exempted, exactly as in the source), and stop at
the brace that returns the depth to zero. -/
def scanBraces : List Char → Nat → Int → Option Nat → Option (Nat × Nat)
  | [], _, _, _ => none
  | c :: cs, i, depth, start? =>
      if c = lbrace then
        scanBraces cs (i + 1) (depth + 1)
          (match start? with | none => some i | some s0 => some s0)
      else if c = rbrace then
        (if depth - 1 = 0 then
          (match start? with
           | some s0 => some (s0, i + 1)
           | none => none)
         else scanBraces cs (i + 1) (depth - 1) start?)
      else scanBraces cs (i + 1) depth start?

/-- extractJSON: the first balanced brace-delimited substring, or the
whole content when no balanced block is found. -/
def extractJSON (content : String) : String :=
  match scanBraces content.data 0 0 none with
  | some (s0, e0) => String.mk ((content.data.drop s0).take (e0 - s0))
  | none => content

/-- The parsing phase of AIPlanner.ParseTask (part_005, 75-85): strict
parse first; on failure parse the extracted brace block; error only when
both fail. -/
def parsePlanContent (content : String) : Except String TaskPlan :=
  match unmarshalTaskPlan content with
  | Except.ok plan => Except.ok plan
  | Except.error _ =>
      match unmarshalTaskPlan (extractJSON content) with
      | Except.ok plan => Except.ok plan
      | Except.error e => Except.error ("parse plan: " ++ e)

/-- AIPlanner.ParseTask with the LLM chat call abstracted to its result:
a chat error is fatal, otherwise the reply content is parsed. -/
def parseTask (chatResult : Except String String) : Except String TaskPlan :=
  match chatResult with
  | Except.error e => Except.error ("llm chat: " ++ e)
  | Except.ok content => parsePlanContent content

/- ===== Claim C5: ParseTask recovery ===== -/

/-- The model reply of the claim: a plan JSON wrapped in prose. -/
def c5Reply : String :=
  "Here is the plan:\n\x7b\"task_id\":\"t1\",\"description\":\"d\",\"steps\":[]\x7d\nThanks"

/-- C5: ParseTask first attempts strict JSON parsing of the model reply;
if that fails it extracts the first balanced brace-delimited substring and
parses that, and it fails only when neither parse recovers a plan.  On the
claim's concrete reply the strict parse fails, the extraction returns
exactly the brace-delimited plan object, and the recovered TaskPlan has
task id "t1", description "d" and zero steps, with no error. -/
theorem c5_parse_task_recovers_wrapped_json :
    (∀ reply plan, unmarshalTaskPlan reply = Except.ok plan →
        parsePlanContent reply = Except.ok plan) ∧
    (∀ reply e, parsePlanContent reply = Except.error e →
        (∀ plan, unmarshalTaskPlan reply ≠ Except.ok plan) ∧
        (∀ plan, unmarshalTaskPlan (extractJSON reply) ≠ Except.ok plan)) ∧
    unmarshalTaskPlan c5Reply = Except.error "invalid json" ∧
    extractJSON c5Reply =
      "\x7b\"task_id\":\"t1\",\"description\":\"d\",\"steps\":[]\x7d" ∧
    parsePlanContent c5Reply = Except.ok ⟨"t1", "d", []⟩ := by
  refine ⟨?_, ?_, rfl, rfl, rfl⟩
  · intro reply plan h
    unfold parsePlanContent
    rw [h]
  · intro reply e h
    unfold parsePlanContent at h
    split at h
    · simp at h
    · split at h
      · simp at h
      · constructor
        · intro plan hok
          simp_all
        · intro plan hok
          simp_all

/-- Witness for C5: the general recovery statements applied at a strict
JSON reply and at a reply with no recoverable JSON object. -/
theorem c5_parse_task_recovers_wrapped_json_witness :
    parsePlanContent "\x7b\"description\":\"p\",\"steps\":[]\x7d" =
      Except.ok ⟨"", "p", []⟩ ∧
    unmarshalTaskPlan "no json here" ≠ Except.ok ⟨"", "", []⟩ :=
  ⟨c5_parse_task_recovers_wrapped_json.1
      "\x7b\"description\":\"p\",\"steps\":[]\x7d" ⟨"", "p", []⟩ (by rfl),
   (c5_parse_task_recovers_wrapped_json.2.1 "no json here"
      "parse plan: invalid json" (by rfl)).1 ⟨"", "", []⟩⟩

end BrowserAuto
